import Mathlib

/-
Shallow embedding of the circuit breaker core (package breaker).

The main development embeds src/breaker/circuit_break.go, the most complete
variant of the module.  The namespace Breaker.draft embeds the draft variant
found in the second source file (Config based constructor with clamping).

Modelling conventions:
  - Go uint32 counters are Nat values; every machine add is taken mod 2 ^ 32.
  - Go int32 status values are Int, with the three named constants below.
  - time.Duration fields are Nat nanoseconds; they never influence a claim.
  - The Go channel closeChan is modelled by the Bool field closeChanClosed.
    A receive from a closed channel is ready, so the select with a default
    branch in the Report functions reduces to a test of this flag.  close()
    on an already closed channel is a Go runtime panic, modelled by the
    panicked constructor of GoResult.
  - go c.waitForSleepWindow() spawns a one shot timer; the ghost counter
    sleepTimersStarted records each spawn, and the effect of the timer
    firing (the timer.C branch of waitForSleepWindow) is the function
    waitForSleepWindowFire.  Likewise the ticker branch of
    resetRefreshInterval is resetRefreshIntervalTick.
  - The callback field func() is modelled by the Bool hasCallback together
    with the ghost counter callbackCalls, incremented wherever the source
    invokes c.callback.  The source of circuit_break.go contains no such
    invocation, so no function below increments it.
  - The Go expression uint32(float32(a) * (float32(p) / float32(100))) is
    modelled by exact truncated rational arithmetic, percentOf a p, which
    agrees with the float32 computation on all values appearing in this
    development (float32 rounding can differ from the exact floor only by
    one unit near exact multiples, far from every comparison made here).
-/

set_option autoImplicit false

namespace Breaker

/-- The two error values the breaker returns to callers. -/
inductive BreakerError where
  | tooManyErrors
  | circuitBreakerClosed
  deriving DecidableEq, Repr

/-- Reasons a modelled operation can panic. -/
inductive PanicReason where
  | unknownStatus
  | closeOfClosedChannel
  deriving DecidableEq, Repr

/-- Result of running a Go function that may panic. -/
inductive GoResult (A : Type) where
  | ok : A → GoResult A
  | panicked : PanicReason → GoResult A
  deriving DecidableEq, Repr

def CircuitBreakerStatusClosed : Int := 1
def CircuitBreakerStatusOpen : Int := 2
def CircuitBreakerStatusHalfOpen : Int := 3

def maxErrorThresholdPercent : Nat := 100
def minErrorThresholdPercent : Nat := 5

/-- Models uint32(float32(a) * (float32(p) / float32(100))). -/
def percentOf (a p : Nat) : Nat :=
  a * p / 100

/-- CircuitBreakerOpenConfig: case in which circuit breaker turns to open. -/
structure CircuitBreakerOpenConfig where
  RefreshInterval : Nat
  ErrorThresholdPercent : Nat
  RequestVolumeThreshold : Nat
  errorVolumeThreshold : Nat
  deriving DecidableEq, Repr

/-- CircuitBreakerCloseConfig: case in which circuit breaker turns to closed. -/
structure CircuitBreakerCloseConfig where
  RecoveryInterval : Nat
  SuccessVolumeThreshold : Nat
  deriving DecidableEq, Repr

def defaultOpenConfig : CircuitBreakerOpenConfig :=
  { RefreshInterval := 3 * 60 * 1000000000
    ErrorThresholdPercent := 20
    RequestVolumeThreshold := 1000
    errorVolumeThreshold := percentOf 1000 20 }

def defaultCloseConfig : CircuitBreakerCloseConfig :=
  { RecoveryInterval := 60 * 1000000000
    SuccessVolumeThreshold := 100 }

/-- The breaker state.  callbackCalls and sleepTimersStarted are ghost
observation fields, see the header comment. -/
structure CircuitBreaker where
  status : Int
  requestVolume : Nat
  openConfig : CircuitBreakerOpenConfig
  errorVolume : Nat
  sleepWindow : Nat
  closeConfig : CircuitBreakerCloseConfig
  hasCallback : Bool
  closeChanClosed : Bool
  callbackCalls : Nat
  sleepTimersStarted : Nat
  deriving DecidableEq, Repr

/-- The exported option surface of the package: the four With functions.
An option built from WithCallback keeps the callback only when the passed
function is not nil, modelled by the Bool argument. -/
inductive BreakerOption where
  | withOpenConfig (oc : CircuitBreakerOpenConfig)
  | withCloseConfig (cc : CircuitBreakerCloseConfig)
  | withSleepWindow (t : Nat)
  | withCallback (notNil : Bool)
  deriving DecidableEq, Repr

/-- Applying one option, as the corresponding With function does. -/
def applyOption (c : CircuitBreaker) : BreakerOption → CircuitBreaker
  | BreakerOption.withOpenConfig oc =>
      { c with openConfig :=
          { oc with errorVolumeThreshold :=
              percentOf oc.RequestVolumeThreshold oc.ErrorThresholdPercent } }
  | BreakerOption.withCloseConfig cc => { c with closeConfig := cc }
  | BreakerOption.withSleepWindow t => { c with sleepWindow := t }
  | BreakerOption.withCallback notNil =>
      if notNil then { c with hasCallback := true } else c

/-- The literal the constructor starts from. -/
def initialBreaker : CircuitBreaker :=
  { status := CircuitBreakerStatusClosed
    requestVolume := 0
    openConfig := defaultOpenConfig
    errorVolume := 0
    sleepWindow := 3 * 60 * 1000000000
    closeConfig := defaultCloseConfig
    hasCallback := false
    closeChanClosed := false
    callbackCalls := 0
    sleepTimersStarted := 0 }

/-- New returns a new circuit breaker: the initial literal with every option
applied in order (the spawned resetRefreshInterval goroutine appears in the
step relation below). -/
def New (opts : List BreakerOption) : CircuitBreaker :=
  opts.foldl applyOption initialBreaker

/-- Close closes circuit breaker: close(c.closeChan).  Closing an already
closed channel panics at runtime in Go. -/
def Close (c : CircuitBreaker) : GoResult CircuitBreaker :=
  if c.closeChanClosed then GoResult.panicked PanicReason.closeOfClosedChannel
  else GoResult.ok { c with closeChanClosed := true }

/-- getCurErrorQuorm. -/
def getCurErrorQuorm (c : CircuitBreaker) : Nat :=
  percentOf c.requestVolume c.openConfig.ErrorThresholdPercent

/-- addRequest: the switch over the status, returning the error value of the
Go function together with the new state. -/
def addRequest (c : CircuitBreaker) (n : Nat) :
    GoResult (CircuitBreaker × Option BreakerError) :=
  if c.status = CircuitBreakerStatusOpen then
    GoResult.ok (c, some BreakerError.tooManyErrors)
  else if c.status = CircuitBreakerStatusHalfOpen then
    GoResult.ok ({ c with requestVolume := (c.requestVolume + n) % 2 ^ 32 }, none)
  else if c.status = CircuitBreakerStatusClosed then
    GoResult.ok ({ c with requestVolume := (c.requestVolume + n) % 2 ^ 32 }, none)
  else
    GoResult.panicked PanicReason.unknownStatus

/-- addErrorRequest: early return on n = 0, then the switch over the status.
In the Closed case v is the post increment error volume; the transition to
Open fires only when v reaches the precomputed threshold, the request volume
reaches RequestVolumeThreshold, and v reaches the current error quorum. -/
def addErrorRequest (c : CircuitBreaker) (n : Nat) : GoResult CircuitBreaker :=
  if n = 0 then GoResult.ok c
  else if c.status = CircuitBreakerStatusOpen then
    GoResult.ok c
  else if c.status = CircuitBreakerStatusHalfOpen then
    GoResult.ok { c with status := CircuitBreakerStatusOpen
                         sleepTimersStarted := c.sleepTimersStarted + 1 }
  else if c.status = CircuitBreakerStatusClosed then
    if c.openConfig.errorVolumeThreshold ≤ (c.errorVolume + n) % 2 ^ 32 ∧
        c.openConfig.RequestVolumeThreshold ≤ c.requestVolume ∧
        getCurErrorQuorm c ≤ (c.errorVolume + n) % 2 ^ 32 then
      GoResult.ok { c with errorVolume := (c.errorVolume + n) % 2 ^ 32
                           status := CircuitBreakerStatusOpen
                           sleepTimersStarted := c.sleepTimersStarted + 1 }
    else
      GoResult.ok { c with errorVolume := (c.errorVolume + n) % 2 ^ 32 }
  else
    GoResult.panicked PanicReason.unknownStatus

/-- ReportRequestN: the select over closeChan, then addRequest. -/
def ReportRequestN (c : CircuitBreaker) (n : Nat) :
    GoResult (CircuitBreaker × Option BreakerError) :=
  if c.closeChanClosed then GoResult.ok (c, some BreakerError.circuitBreakerClosed)
  else addRequest c n

/-- ReportRequest is a short hand of ReportRequestN with n = 1. -/
def ReportRequest (c : CircuitBreaker) :
    GoResult (CircuitBreaker × Option BreakerError) :=
  if c.closeChanClosed then GoResult.ok (c, some BreakerError.circuitBreakerClosed)
  else ReportRequestN c 1

/-- ReportErrorN: the select over closeChan, then addErrorRequest, returning
nil when addErrorRequest returns. -/
def ReportErrorN (c : CircuitBreaker) (n : Nat) :
    GoResult (CircuitBreaker × Option BreakerError) :=
  if c.closeChanClosed then GoResult.ok (c, some BreakerError.circuitBreakerClosed)
  else
    match addErrorRequest c n with
    | GoResult.ok c2 => GoResult.ok (c2, none)
    | GoResult.panicked r => GoResult.panicked r

/-- ReportError is a short hand of ReportErrorN with n = 1. -/
def ReportError (c : CircuitBreaker) :
    GoResult (CircuitBreaker × Option BreakerError) :=
  if c.closeChanClosed then GoResult.ok (c, some BreakerError.circuitBreakerClosed)
  else ReportErrorN c 1

/-- The ticker branch of resetRefreshInterval: both counters are stored to
zero, with no test of the status. -/
def resetRefreshIntervalTick (c : CircuitBreaker) : CircuitBreaker :=
  { c with requestVolume := 0, errorVolume := 0 }

/-- The timer branch of waitForSleepWindow: the status is stored to half
open, and nothing else changes. -/
def waitForSleepWindowFire (c : CircuitBreaker) : CircuitBreaker :=
  { c with status := CircuitBreakerStatusHalfOpen }

/-- One step of the breaker: a report call finishing normally, a shutdown
finishing normally, the refresh ticker firing, or the sleep window timer
firing.  The two timer events require the breaker not to be shut down,
since both goroutines exit once closeChan is closed. -/
inductive Step : CircuitBreaker → CircuitBreaker → Prop where
  | report {c c2 : CircuitBreaker} (n : Nat) (e : Option BreakerError) :
      ReportRequestN c n = GoResult.ok (c2, e) → Step c c2
  | reportErr {c c2 : CircuitBreaker} (n : Nat) (e : Option BreakerError) :
      ReportErrorN c n = GoResult.ok (c2, e) → Step c c2
  | shutdown {c c2 : CircuitBreaker} :
      Close c = GoResult.ok c2 → Step c c2
  | tick {c : CircuitBreaker} :
      c.closeChanClosed = false → Step c (resetRefreshIntervalTick c)
  | sleepFire {c : CircuitBreaker} :
      c.closeChanClosed = false → Step c (waitForSleepWindowFire c)

/-- States reachable from the constructor under any option list. -/
inductive Reachable (opts : List BreakerOption) : CircuitBreaker → Prop where
  | init : Reachable opts (New opts)
  | step {c c2 : CircuitBreaker} : Reachable opts c → Step c c2 → Reachable opts c2

/-- The status field holds one of the three declared constants. -/
def statusValid (c : CircuitBreaker) : Prop :=
  c.status = CircuitBreakerStatusClosed ∨
  c.status = CircuitBreakerStatusOpen ∨
  c.status = CircuitBreakerStatusHalfOpen

namespace draft

/-- Config of the draft variant (second source file). -/
structure Config where
  RefreshInterval : Nat
  ErrorThresholdPercent : Nat
  RequestVolumeThreshold : Nat
  SleepWindow : Nat
  SuccessThresholdPercent : Nat
  RecoveryInterval : Nat
  SuccessVolumeThreshold : Nat
  hasCallback : Bool
  deriving DecidableEq, Repr

def OperationModeAuto : Int := 1
def OperationModeManual : Int := 2

/-- defaultConfig of the draft variant; SleepWindow is left at the Go zero
value. -/
def defaultConfig : Config :=
  { RefreshInterval := 5 * 60 * 1000
    ErrorThresholdPercent := 20
    RequestVolumeThreshold := 1000
    SleepWindow := 0
    SuccessThresholdPercent := 85
    RecoveryInterval := 30 * 1000
    SuccessVolumeThreshold := 100
    hasCallback := false }

/-- The draft breaker record; start and eventTime timestamps and the mutex
carry no claim relevant information and are omitted. -/
structure CircuitBreaker where
  status : Int
  operationMode : Int
  config : Config
  errorVolumeThreshold : Nat
  successVolumeThreshold : Nat
  requestVolume : Nat
  errorVolume : Nat
  deriving DecidableEq, Repr

/-- The variadic config argument: config[0] when present, else the default. -/
def pickConfig : List Config → Config
  | [] => defaultConfig
  | cfg :: _ => cfg

/-- New of the draft variant: picks the config, clamps ErrorThresholdPercent
into [minErrorThresholdPercent, maxErrorThresholdPercent] with the two
sequential if statements of the source, and precomputes
errorVolumeThreshold.  successVolumeThreshold is left at the zero value. -/
def New (config : List Config) : CircuitBreaker :=
  let cfg0 := pickConfig config
  let cfg1 :=
    if maxErrorThresholdPercent < cfg0.ErrorThresholdPercent then
      { cfg0 with ErrorThresholdPercent := maxErrorThresholdPercent }
    else cfg0
  let cfg2 :=
    if cfg1.ErrorThresholdPercent < minErrorThresholdPercent then
      { cfg1 with ErrorThresholdPercent := minErrorThresholdPercent }
    else cfg1
  { status := CircuitBreakerStatusClosed
    operationMode := OperationModeAuto
    config := cfg2
    errorVolumeThreshold :=
      percentOf cfg2.RequestVolumeThreshold cfg2.ErrorThresholdPercent
    successVolumeThreshold := 0
    requestVolume := 0
    errorVolume := 0 }

end draft

/-- Fixture: a closed breaker with the default config after 999 requests and
899 errors, used to check the 999 requests, 900 errors scenario. -/
def fix999 : CircuitBreaker :=
  { New [] with requestVolume := 999, errorVolume := 899 }

/-- Fixture: an open breaker with nonzero counters. -/
def fixOpen : CircuitBreaker :=
  { New [] with status := CircuitBreakerStatusOpen
                requestVolume := 7, errorVolume := 4 }

/-- Fixture: a half open breaker. -/
def fixHalfOpen : CircuitBreaker :=
  { New [] with status := CircuitBreakerStatusHalfOpen
                requestVolume := 7, errorVolume := 4 }

/-- Fixture: a closed breaker with a callback installed, sitting one error
below every opening gate at exactly the volume threshold. -/
def fixCb : CircuitBreaker :=
  { New [BreakerOption.withCallback true] with
      requestVolume := 1000, errorVolume := 199 }

/-- Fixture: an open config whose ErrorThresholdPercent is zero. -/
def ocZero : CircuitBreakerOpenConfig :=
  { RefreshInterval := 1000000000
    ErrorThresholdPercent := 0
    RequestVolumeThreshold := 1000
    errorVolumeThreshold := 0 }

/-- Helper: the shape of addErrorRequest on a closed, nonzero report. -/
theorem addErrorRequest_closed_eq (c : CircuitBreaker) (n : Nat)
    (hst : c.status = CircuitBreakerStatusClosed) (hn : n ≠ 0) :
    addErrorRequest c n =
      (if c.openConfig.errorVolumeThreshold ≤ (c.errorVolume + n) % 2 ^ 32 ∧
          c.openConfig.RequestVolumeThreshold ≤ c.requestVolume ∧
          getCurErrorQuorm c ≤ (c.errorVolume + n) % 2 ^ 32 then
        GoResult.ok { c with errorVolume := (c.errorVolume + n) % 2 ^ 32
                             status := CircuitBreakerStatusOpen
                             sleepTimersStarted := c.sleepTimersStarted + 1 }
      else
        GoResult.ok { c with errorVolume := (c.errorVolume + n) % 2 ^ 32 }) := by
  have hno : ¬ c.status = CircuitBreakerStatusOpen := by rw [hst]; decide
  have hnh : ¬ c.status = CircuitBreakerStatusHalfOpen := by rw [hst]; decide
  unfold addErrorRequest
  rw [if_neg hn, if_neg hno, if_neg hnh, if_pos hst]

/-- C1 (amended): from Closed, a nonzero error report transitions to Open
exactly when all three gates hold: the post increment errorVolume reaches
the precomputed errorVolumeThreshold, the requestVolume reaches
RequestVolumeThreshold, and the post increment errorVolume reaches the
current error quorum derived from the live requestVolume. -/
theorem closedOpen_iff_three_gates (c : CircuitBreaker) (n : Nat)
    (hst : c.status = CircuitBreakerStatusClosed)
    (hcl : c.closeChanClosed = false) (hn : n ≠ 0) :
    ∃ c2, ReportErrorN c n = GoResult.ok (c2, none) ∧
      c2.errorVolume = (c.errorVolume + n) % 2 ^ 32 ∧
      (c2.status = CircuitBreakerStatusOpen ↔
        (c.openConfig.errorVolumeThreshold ≤ (c.errorVolume + n) % 2 ^ 32 ∧
         c.openConfig.RequestVolumeThreshold ≤ c.requestVolume ∧
         getCurErrorQuorm c ≤ (c.errorVolume + n) % 2 ^ 32)) := by
  have hcl2 : ¬ c.closeChanClosed = true := by rw [hcl]; decide
  have hno : ¬ c.status = CircuitBreakerStatusOpen := by rw [hst]; decide
  by_cases hg : c.openConfig.errorVolumeThreshold ≤ (c.errorVolume + n) % 2 ^ 32 ∧
      c.openConfig.RequestVolumeThreshold ≤ c.requestVolume ∧
      getCurErrorQuorm c ≤ (c.errorVolume + n) % 2 ^ 32
  · refine ⟨{ c with
        errorVolume := (c.errorVolume + n) % 2 ^ 32,
        status := CircuitBreakerStatusOpen,
        sleepTimersStarted := c.sleepTimersStarted + 1 }, ?_, rfl, ?_⟩
    · unfold ReportErrorN
      rw [if_neg hcl2, addErrorRequest_closed_eq c n hst hn, if_pos hg]
    · exact iff_of_true rfl hg
  · refine ⟨{ c with errorVolume := (c.errorVolume + n) % 2 ^ 32 }, ?_, rfl, ?_⟩
    · unfold ReportErrorN
      rw [if_neg hcl2, addErrorRequest_closed_eq c n hst hn, if_neg hg]
    · exact iff_of_false hno hg

/-- C1 (witness): with the default config, after 999 requests and 899
errors, one more error leaves the breaker Closed: the volume gate
1000 ≤ 999 fails. -/
theorem closedOpen_iff_three_gates_witness :
    ∃ c2, ReportErrorN fix999 1 = GoResult.ok (c2, none) ∧
      c2.errorVolume = (fix999.errorVolume + 1) % 2 ^ 32 ∧
      (c2.status = CircuitBreakerStatusOpen ↔
        (fix999.openConfig.errorVolumeThreshold ≤ (fix999.errorVolume + 1) % 2 ^ 32 ∧
         fix999.openConfig.RequestVolumeThreshold ≤ fix999.requestVolume ∧
         getCurErrorQuorm fix999 ≤ (fix999.errorVolume + 1) % 2 ^ 32)) :=
  closedOpen_iff_three_gates fix999 1 (by decide) (by decide) (by decide)

/-- C1 (counterexample): after 3000 requests, an error report bringing the
error volume to 400 satisfies both gates named by the claim (400 is at
least the precomputed threshold 200 and 3000 is at least the volume
threshold 1000), yet the breaker stays Closed: the quorum gate 600 is not
reached. -/
theorem closedOpen_two_gates_not_sufficient :
    ∃ c1 c2,
      ReportRequestN (New []) 3000 = GoResult.ok (c1, none) ∧
      ReportErrorN c1 400 = GoResult.ok (c2, none) ∧
      c1.openConfig.errorVolumeThreshold ≤ c2.errorVolume ∧
      c1.openConfig.RequestVolumeThreshold ≤ c1.requestVolume ∧
      ¬ c2.status = CircuitBreakerStatusOpen ∧
      c2.status = CircuitBreakerStatusClosed := by
  refine ⟨_, _, rfl, rfl, ?_, ?_, ?_, ?_⟩ <;> decide

/-- C2: shutting down a fresh breaker succeeds and makes every later report
return the shutdown error without mutating state, but a second shutdown
panics: it closes an already closed channel. -/
theorem double_close_panics_reports_rejected :
    ∃ c2, Close (New []) = GoResult.ok c2 ∧
      Close c2 = GoResult.panicked PanicReason.closeOfClosedChannel ∧
      (∀ n, ReportRequestN c2 n =
        GoResult.ok (c2, some BreakerError.circuitBreakerClosed)) ∧
      (∀ n, ReportErrorN c2 n =
        GoResult.ok (c2, some BreakerError.circuitBreakerClosed)) := by
  refine ⟨{ New [] with closeChanClosed := true }, by decide, by decide, ?_, ?_⟩ <;>
    intro n <;> simp [ReportRequestN, ReportErrorN]

/-- C3: a breaker with a callback installed transitions Closed to Open on an
error report, yet the callback is never invoked: the ghost invocation
counter stays at zero because the source contains no call site of the
callback field. -/
theorem closed_to_open_callback_not_invoked :
    fixCb.hasCallback = true ∧ fixCb.status = CircuitBreakerStatusClosed ∧
    fixCb.callbackCalls = 0 ∧
    ∃ c2, ReportErrorN fixCb 1 = GoResult.ok (c2, none) ∧
      c2.status = CircuitBreakerStatusOpen ∧ c2.callbackCalls = 0 := by
  refine ⟨by decide, by decide, by decide, _, rfl, ?_, ?_⟩ <;> decide

/-- C4 (amended): when the sleep window timer fires on an Open breaker the
status becomes HalfOpen, but the counters are not reset: requestVolume and
errorVolume keep their pre transition values (and this variant has no
successVolume field at all). -/
theorem sleep_fire_halfopen_counters_unchanged (c : CircuitBreaker)
    (_hst : c.status = CircuitBreakerStatusOpen) :
    (waitForSleepWindowFire c).status = CircuitBreakerStatusHalfOpen ∧
    (waitForSleepWindowFire c).requestVolume = c.requestVolume ∧
    (waitForSleepWindowFire c).errorVolume = c.errorVolume := by
  exact ⟨rfl, rfl, rfl⟩

/-- C4 (witness): the fire on a concrete Open breaker. -/
theorem sleep_fire_halfopen_counters_unchanged_witness :
    (waitForSleepWindowFire fixOpen).status = CircuitBreakerStatusHalfOpen ∧
    (waitForSleepWindowFire fixOpen).requestVolume = fixOpen.requestVolume ∧
    (waitForSleepWindowFire fixOpen).errorVolume = fixOpen.errorVolume :=
  sleep_fire_halfopen_counters_unchanged fixOpen (by decide)

/-- C4 (counterexample): on an Open breaker with requestVolume 7, the sleep
window fire leaves requestVolume at 7, not 0 as the claim states. -/
theorem sleep_fire_keeps_counters :
    fixOpen.status = CircuitBreakerStatusOpen ∧
    (waitForSleepWindowFire fixOpen).status = CircuitBreakerStatusHalfOpen ∧
    (waitForSleepWindowFire fixOpen).requestVolume = 7 ∧
    ¬ (waitForSleepWindowFire fixOpen).requestVolume = 0 := by decide

/-- C5: with the breaker not shut down, ReportRequestN returns the too many
errors value and changes nothing in Open, and in Closed or HalfOpen adds n
to requestVolume (as the uint32 machine add) and returns no error. -/
theorem reportRequestN_behavior (c : CircuitBreaker) (n : Nat)
    (hcl : c.closeChanClosed = false) :
    (c.status = CircuitBreakerStatusOpen →
      ReportRequestN c n = GoResult.ok (c, some BreakerError.tooManyErrors)) ∧
    (c.status = CircuitBreakerStatusClosed ∨ c.status = CircuitBreakerStatusHalfOpen →
      ReportRequestN c n =
        GoResult.ok ({ c with requestVolume := (c.requestVolume + n) % 2 ^ 32 },
          none)) := by
  have hcl2 : ¬ c.closeChanClosed = true := by rw [hcl]; decide
  constructor
  · intro h
    unfold ReportRequestN addRequest
    rw [if_neg hcl2, if_pos h]
  · intro h
    unfold ReportRequestN addRequest
    rcases h with h | h
    · have hno : ¬ c.status = CircuitBreakerStatusOpen := by rw [h]; decide
      have hnh : ¬ c.status = CircuitBreakerStatusHalfOpen := by rw [h]; decide
      rw [if_neg hcl2, if_neg hno, if_neg hnh, if_pos h]
    · have hno : ¬ c.status = CircuitBreakerStatusOpen := by rw [h]; decide
      rw [if_neg hcl2, if_neg hno, if_pos h]

/-- C5 (witness): the two branches at concrete breakers. -/
theorem reportRequestN_behavior_witness :
    ReportRequestN fixOpen 5 =
      GoResult.ok (fixOpen, some BreakerError.tooManyErrors) ∧
    ReportRequestN (New []) 5 =
      GoResult.ok ({ New [] with
        requestVolume := ((New []).requestVolume + 5) % 2 ^ 32 }, none) :=
  ⟨(reportRequestN_behavior fixOpen 5 (by decide)).1 (by decide),
   (reportRequestN_behavior (New []) 5 (by decide)).2 (Or.inl (by decide))⟩

/-- C6 (amended): until shutdown the refresh ticker keeps running in every
status; each tick zeroes requestVolume and errorVolume and leaves the
status unchanged. -/
theorem refresh_tick_always_resets (c : CircuitBreaker)
    (hcl : c.closeChanClosed = false) :
    Step c (resetRefreshIntervalTick c) ∧
    (resetRefreshIntervalTick c).requestVolume = 0 ∧
    (resetRefreshIntervalTick c).errorVolume = 0 ∧
    (resetRefreshIntervalTick c).status = c.status :=
  ⟨Step.tick hcl, rfl, rfl, rfl⟩

/-- C6 (witness): the tick on a concrete HalfOpen breaker. -/
theorem refresh_tick_always_resets_witness :
    Step fixHalfOpen (resetRefreshIntervalTick fixHalfOpen) ∧
    (resetRefreshIntervalTick fixHalfOpen).requestVolume = 0 ∧
    (resetRefreshIntervalTick fixHalfOpen).errorVolume = 0 ∧
    (resetRefreshIntervalTick fixHalfOpen).status = fixHalfOpen.status :=
  refresh_tick_always_resets fixHalfOpen (by decide)

/-- C6 (counterexample): the tick is a possible step on an Open breaker and
zeroes both counters there, so the ticker is not disabled while Open. -/
theorem refresh_tick_zeroes_while_open :
    fixOpen.status = CircuitBreakerStatusOpen ∧
    fixOpen.closeChanClosed = false ∧
    Step fixOpen (resetRefreshIntervalTick fixOpen) ∧
    (resetRefreshIntervalTick fixOpen).requestVolume = 0 ∧
    (resetRefreshIntervalTick fixOpen).errorVolume = 0 ∧
    ¬ (resetRefreshIntervalTick fixOpen).requestVolume = fixOpen.requestVolume :=
  ⟨by decide, by decide, Step.tick (by decide), by decide, by decide, by decide⟩

/-- C7: any nonzero error report on a HalfOpen, not shut down breaker moves
the status to Open and spawns a fresh sleep window timer. -/
theorem halfopen_error_reopens (c : CircuitBreaker) (n : Nat)
    (hst : c.status = CircuitBreakerStatusHalfOpen) (hn : 1 ≤ n)
    (hcl : c.closeChanClosed = false) :
    ReportErrorN c n =
      GoResult.ok ({ c with
        status := CircuitBreakerStatusOpen,
        sleepTimersStarted := c.sleepTimersStarted + 1 }, none) := by
  have hcl2 : ¬ c.closeChanClosed = true := by rw [hcl]; decide
  have hn0 : ¬ n = 0 := by omega
  have hno : ¬ c.status = CircuitBreakerStatusOpen := by rw [hst]; decide
  unfold ReportErrorN addErrorRequest
  rw [if_neg hcl2, if_neg hn0, if_neg hno, if_pos hst]

/-- C7 (witness): one error on a concrete HalfOpen breaker. -/
theorem halfopen_error_reopens_witness :
    ReportErrorN fixHalfOpen 1 =
      GoResult.ok ({ fixHalfOpen with
        status := CircuitBreakerStatusOpen,
        sleepTimersStarted := fixHalfOpen.sleepTimersStarted + 1 }, none) :=
  halfopen_error_reopens fixHalfOpen 1 (by decide) (by decide) (by decide)

/-- C8 (amended): the draft Config constructor clamps ErrorThresholdPercent
into [5, 100] for every configuration. -/
theorem draft_New_clamps_percent (cfg : draft.Config) :
    minErrorThresholdPercent ≤ (draft.New [cfg]).config.ErrorThresholdPercent ∧
    (draft.New [cfg]).config.ErrorThresholdPercent ≤ maxErrorThresholdPercent := by
  simp only [draft.New, draft.pickConfig]
  split_ifs <;> simp_all [maxErrorThresholdPercent, minErrorThresholdPercent]

/-- C8 (counterexample): the option based constructor of the breaker package
applies no clamp: with an open config whose percent is 0, the running
breaker keeps ErrorThresholdPercent 0, below the documented minimum 5. -/
theorem withOpenConfig_no_clamp :
    (New [BreakerOption.withOpenConfig ocZero]).openConfig.ErrorThresholdPercent
      = 0 ∧
    (New [BreakerOption.withOpenConfig ocZero]).openConfig.ErrorThresholdPercent
      < minErrorThresholdPercent := by decide

/-- C10: an error report on an Open, not shut down breaker returns no error
and leaves the whole state unchanged: errors reported while Open are
silently discarded. -/
theorem open_reportErrorN_noop (c : CircuitBreaker) (n : Nat)
    (hst : c.status = CircuitBreakerStatusOpen)
    (hcl : c.closeChanClosed = false) :
    ReportErrorN c n = GoResult.ok (c, none) := by
  have hcl2 : ¬ c.closeChanClosed = true := by rw [hcl]; decide
  have ha : addErrorRequest c n = GoResult.ok c := by
    unfold addErrorRequest
    by_cases hn : n = 0
    · rw [if_pos hn]
    · rw [if_neg hn, if_pos hst]
  unfold ReportErrorN
  rw [if_neg hcl2, ha]

/-- C10 (witness): an error on a concrete Open breaker. -/
theorem open_reportErrorN_noop_witness :
    ReportErrorN fixOpen 3 = GoResult.ok (fixOpen, none) :=
  open_reportErrorN_noop fixOpen 3 (by decide) (by decide)

/-- Helper: no option touches the status field. -/
theorem applyOption_status (c : CircuitBreaker) (o : BreakerOption) :
    (applyOption c o).status = c.status := by
  cases o with
  | withOpenConfig oc => rfl
  | withCloseConfig cc => rfl
  | withSleepWindow t => rfl
  | withCallback b => cases b <;> rfl

/-- Helper: folding any option list keeps the status. -/
theorem foldl_applyOption_status (opts : List BreakerOption) (c : CircuitBreaker) :
    (opts.foldl applyOption c).status = c.status := by
  induction opts generalizing c with
  | nil => rfl
  | cons o rest ih => rw [List.foldl_cons, ih, applyOption_status]

/-- Helper: every constructed breaker starts Closed. -/
theorem New_status (opts : List BreakerOption) :
    (New opts).status = CircuitBreakerStatusClosed := by
  unfold New
  rw [foldl_applyOption_status]
  rfl

/-- Helper: on a valid status addRequest returns normally and keeps the
status. -/
theorem addRequest_ok (c : CircuitBreaker) (n : Nat) (hv : statusValid c) :
    ∃ c2 e, addRequest c n = GoResult.ok (c2, e) ∧ c2.status = c.status := by
  rcases hv with h | h | h
  · have hno : ¬ c.status = CircuitBreakerStatusOpen := by rw [h]; decide
    have hnh : ¬ c.status = CircuitBreakerStatusHalfOpen := by rw [h]; decide
    refine ⟨{ c with requestVolume := (c.requestVolume + n) % 2 ^ 32 }, none, ?_, rfl⟩
    unfold addRequest
    rw [if_neg hno, if_neg hnh, if_pos h]
  · refine ⟨c, some BreakerError.tooManyErrors, ?_, rfl⟩
    unfold addRequest
    rw [if_pos h]
  · have hno : ¬ c.status = CircuitBreakerStatusOpen := by rw [h]; decide
    refine ⟨{ c with requestVolume := (c.requestVolume + n) % 2 ^ 32 }, none, ?_, rfl⟩
    unfold addRequest
    rw [if_neg hno, if_pos h]

/-- Helper: on a valid status addErrorRequest returns normally and the new
status is again valid. -/
theorem addErrorRequest_ok (c : CircuitBreaker) (n : Nat) (hv : statusValid c) :
    ∃ c2, addErrorRequest c n = GoResult.ok c2 ∧ statusValid c2 := by
  by_cases hn : n = 0
  · exact ⟨c, by unfold addErrorRequest; rw [if_pos hn], hv⟩
  rcases hv with h | h | h
  · rw [addErrorRequest_closed_eq c n h hn]
    by_cases hg : c.openConfig.errorVolumeThreshold ≤ (c.errorVolume + n) % 2 ^ 32 ∧
        c.openConfig.RequestVolumeThreshold ≤ c.requestVolume ∧
        getCurErrorQuorm c ≤ (c.errorVolume + n) % 2 ^ 32
    · rw [if_pos hg]
      exact ⟨_, rfl, Or.inr (Or.inl rfl)⟩
    · rw [if_neg hg]
      exact ⟨_, rfl, Or.inl h⟩
  · refine ⟨c, ?_, Or.inr (Or.inl h)⟩
    unfold addErrorRequest
    rw [if_neg hn, if_pos h]
  · have hno : ¬ c.status = CircuitBreakerStatusOpen := by rw [h]; decide
    refine ⟨{ c with
        status := CircuitBreakerStatusOpen,
        sleepTimersStarted := c.sleepTimersStarted + 1 },
      ?_, Or.inr (Or.inl rfl)⟩
    unfold addErrorRequest
    rw [if_neg hn, if_neg hno, if_pos h]

/-- Helper: every step of the model preserves validity of the status. -/
theorem step_statusValid {c c2 : CircuitBreaker} (hv : statusValid c)
    (hs : Step c c2) : statusValid c2 := by
  cases hs with
  | report n e heq =>
      unfold ReportRequestN at heq
      by_cases hcl : c.closeChanClosed = true
      · rw [if_pos hcl] at heq
        simp only [GoResult.ok.injEq, Prod.mk.injEq] at heq
        obtain ⟨h1, _⟩ := heq
        rw [← h1]
        exact hv
      · rw [if_neg hcl] at heq
        obtain ⟨c3, e3, h3, hst⟩ := addRequest_ok c n hv
        rw [h3] at heq
        simp only [GoResult.ok.injEq, Prod.mk.injEq] at heq
        obtain ⟨h1, _⟩ := heq
        rw [← h1]
        unfold statusValid at hv ⊢
        rw [hst]
        exact hv
  | reportErr n e heq =>
      unfold ReportErrorN at heq
      by_cases hcl : c.closeChanClosed = true
      · rw [if_pos hcl] at heq
        simp only [GoResult.ok.injEq, Prod.mk.injEq] at heq
        obtain ⟨h1, _⟩ := heq
        rw [← h1]
        exact hv
      · rw [if_neg hcl] at heq
        obtain ⟨c3, h3, hv3⟩ := addErrorRequest_ok c n hv
        rw [h3] at heq
        simp only [GoResult.ok.injEq, Prod.mk.injEq] at heq
        obtain ⟨h1, _⟩ := heq
        rw [← h1]
        exact hv3
  | shutdown heq =>
      unfold Close at heq
      by_cases hcl : c.closeChanClosed = true
      · rw [if_pos hcl] at heq
        exact absurd heq (by simp)
      · rw [if_neg hcl] at heq
        simp only [GoResult.ok.injEq] at heq
        rw [← heq]
        exact hv
  | tick hcl => exact hv
  | sleepFire hcl => exact Or.inr (Or.inr rfl)

/-- C9: every breaker reachable from the constructor under any options and
any sequence of report calls, shutdown and timer firings has a status that
is one of the three declared constants, and on such a breaker neither
addRequest nor addErrorRequest ever reaches its unknown status panic
branch. -/
theorem reachable_statusValid_total (opts : List BreakerOption)
    (c : CircuitBreaker) (h : Reachable opts c) :
    statusValid c ∧
    (∀ n, ∃ c2 e, addRequest c n = GoResult.ok (c2, e)) ∧
    (∀ n, ∃ c2, addErrorRequest c n = GoResult.ok c2) := by
  have hv : statusValid c := by
    induction h with
    | init => exact Or.inl (New_status opts)
    | step hr hs ih => exact step_statusValid ih hs
  refine ⟨hv, fun n => ?_, fun n => ?_⟩
  · obtain ⟨c2, e, h2, _⟩ := addRequest_ok c n hv
    exact ⟨c2, e, h2⟩
  · obtain ⟨c2, h2, _⟩ := addErrorRequest_ok c n hv
    exact ⟨c2, h2⟩

/-- C9 (witness): the invariant at the freshly constructed breaker. -/
theorem reachable_statusValid_total_witness :
    statusValid (New []) ∧
    (∀ n, ∃ c2 e, addRequest (New []) n = GoResult.ok (c2, e)) ∧
    (∀ n, ∃ c2, addErrorRequest (New []) n = GoResult.ok c2) :=
  reachable_statusValid_total [] (New []) Reachable.init

end Breaker
